import Mathlib

/-!
Shallow embedding of the DR-Capital/On-Chain-War trading-execution client,
verified against its natural-language specification.

Source files embedded:
  src/dex_trader/dex/odos_dex.py  (class OdosDex: get_quote,
    assemble_transaction, place_order, submit_to_chain, cancel_order)
  src/dex_trader/dex/base_dex.py  (abstract interface, no logic)

Modelling conventions:
  - Python/JSON values are the inductive `Json`; Python dicts are
    association lists `List (String × Json)` in insertion order.
  - The two remote HTTP endpoints and the web3 network client are oracles
    passed in as structures (`Net`, `W3`); each HTTP round trip either
    yields a status code with a parsed JSON body or fails at the network
    or body-parse level.
  - Python exceptions are the inductive `Exn`.  Each constructor records
    one raise site of the source; `Exn.exceptionIn fn e` is the
    re-wrapping `raise Exception(f"Exception in <fn>: str(e)")` performed
    by every method's catch-all handler.
  - Effects are made explicit: each operation returns, besides its
    result, the list of network calls it issued (for the no-call-before-
    validation properties) and, where the source assigns into a
    caller-supplied mapping, the post-state of that mapping.
    `place_order` contains no statement assigning into `order` or its
    embedded `quote_params`, so its post-state component is the argument
    itself; `submit_to_chain` assigns `transaction["value"]` in place
    (line 137 of the source), which the model reflects in `txAfter`.
  - `print` calls are modelled only in `cancel_order`, where the printed
    line is the whole body; stdout elsewhere carries no claimed content.
-/

/-- Values of the Python/JSON data domain handled by the client: `null`
(Python None), booleans, integers, strings, arrays and objects.  Objects
are association lists in insertion order, as Python dicts are. -/
inductive Json where
  | null : Json
  | bool : Bool → Json
  | int : Int → Json
  | str : String → Json
  | arr : List Json → Json
  | obj : List (String × Json) → Json

/-- Python dicts as used for the caller-supplied `order` and
`transaction` mappings. -/
abbrev PyDict := List (String × Json)

/-- First-match lookup in an association list: the semantics of reading a
key of a Python dict (keys are unique, so first match is the match). -/
def lookupKey : PyDict → String → Option Json
  | [], _ => none
  | (k, v) :: rest, key => if k == key then some v else lookupKey rest key

/-- Python `d.get(key)`: `some` value when present, `none` (Python None)
when absent. -/
def pyGet (d : PyDict) (k : String) : Option Json := lookupKey d k

/-- Subscript lookup `j[key]` on a JSON object; `none` models the raised
KeyError (or TypeError on a non-mapping) that the caller's handler then
wraps. -/
def Json.get? : Json → String → Option Json
  | .obj kvs, k => lookupKey kvs k
  | _, _ => none

/-- Python truthiness of a value, as tested by `if not quote_params:`
(odos_dex.py line 100): None, False, 0, empty string, empty list and
empty dict are falsy. -/
def pyFalsy : Json → Bool
  | .null => true
  | .bool b => !b
  | .int n => n == 0
  | .str s => s.isEmpty
  | .arr xs => xs.isEmpty
  | .obj kvs => kvs.isEmpty

/-- Outcome of one HTTP POST round trip: a status code with the parsed
JSON body, or a network-level failure (timeout, connection error,
unparseable body) raised by the HTTP client. -/
inductive HttpResult where
  | ok : Nat → Json → HttpResult
  | netFail : String → HttpResult

/-- Oracle for the two remote Odos endpoints: `quote` is POST
/sor/quote/v2, `assemble` is POST /sor/assemble, each applied to the JSON
request body the client sends. -/
structure Net where
  quote : Json → HttpResult
  assemble : Json → HttpResult

/-- Network calls issued by the client, recorded with the exact JSON
request body sent. -/
inductive Call where
  | quotePost : Json → Call
  | assemblePost : Json → Call

/-- Python exceptions raised by the source, one constructor per raise
site: `valueError` is `raise ValueError(...)` (line 101), `keyError` a
failed subscript, `errorInQuote` line 45, `errorInAssembly` line 75,
`pyError` a failure inside a modelled external call or builtin, and
`exceptionIn fn e` the catch-all re-wrap
`raise Exception(f"Exception in <fn>: str(e)")` of each method. -/
inductive Exn where
  | valueError : String → Exn
  | keyError : String → Exn
  | errorInQuote : Json → Exn
  | errorInAssembly : Json → Exn
  | pyError : String → Exn
  | exceptionIn : String → Exn → Exn

/-- ASCII apostrophe, built from its code point so the message string
below matches the source literal exactly. -/
def apos : String := String.singleton (Char.ofNat 39)

/-- Message of the ValueError raised at odos_dex.py line 101. -/
def quoteParamsMsg : String := "Order must include " ++ apos ++ "quote_params" ++ apos

/-- OdosDex.get_quote (odos_dex.py lines 14-47): POST the caller's
quote_params to the quoting endpoint; a 200 response returns the parsed
body, any other status raises `Error in Quote: <body>`, and every failure
is re-wrapped by the catch-all into `Exception in get_quote: ...`.
Returns the result together with the list of calls issued. -/
def get_quote (net : Net) (quote_params : Json) : Except Exn Json × List Call :=
  match net.quote quote_params with
  | HttpResult.ok status body =>
      if status == 200 then
        (Except.ok body, [Call.quotePost quote_params])
      else
        (Except.error (Exn.exceptionIn "get_quote" (Exn.errorInQuote body)),
         [Call.quotePost quote_params])
  | HttpResult.netFail m =>
      (Except.error (Exn.exceptionIn "get_quote" (Exn.pyError m)),
       [Call.quotePost quote_params])

/-- OdosDex.assemble_transaction (odos_dex.py lines 49-77): build the
payload `{userAddr, pathId, simulate}` and POST it to the assembly
endpoint; a 200 response returns the parsed body, any other status raises
`Error in Transaction Assembly: <body>`, and every failure is re-wrapped
into `Exception in assemble_transaction: ...`.  The Python default
`simulate=False` is applied by the caller in this model; `place_order`
always passes the flag explicitly. -/
def assemble_transaction (net : Net) (user_addr path_id simulate : Json) :
    Except Exn Json × List Call :=
  let payload := Json.obj [("userAddr", user_addr), ("pathId", path_id), ("simulate", simulate)]
  match net.assemble payload with
  | HttpResult.ok status body =>
      if status == 200 then
        (Except.ok body, [Call.assemblePost payload])
      else
        (Except.error (Exn.exceptionIn "assemble_transaction" (Exn.errorInAssembly body)),
         [Call.assemblePost payload])
  | HttpResult.netFail m =>
      (Except.error (Exn.exceptionIn "assemble_transaction" (Exn.pyError m)),
       [Call.assemblePost payload])

/-- Result of OdosDex.place_order: the returned value or exception, the
network calls issued, and the post-state of the caller's `order`
mapping. -/
structure PlaceOut where
  res : Except Exn Json
  calls : List Call
  orderAfter : PyDict

/-- OdosDex.place_order (odos_dex.py lines 79-115): read
`order.get("quote_params")` and raise ValueError when it is missing or
falsy; otherwise run get_quote, then assemble_transaction with
`quote_params["userAddr"]`, `quote["pathId"]` and
`order.get("simulate", False)`, returning the assembled transaction.
Every failure inside the try block, the ValueError included, is caught at
line 114 and re-wrapped into `Exception in place_order: ...`.  The body
assigns into neither `order` nor `quote_params`, so the post-state of the
caller's mapping is the argument itself. -/
def place_order (net : Net) (order : PyDict) : PlaceOut :=
  let inner : Except Exn Json × List Call :=
    match pyGet order "quote_params" with
    | none => (Except.error (Exn.valueError quoteParamsMsg), [])
    | some qp =>
      if pyFalsy qp then (Except.error (Exn.valueError quoteParamsMsg), [])
      else
        match get_quote net qp with
        | (Except.error e, cs) => (Except.error e, cs)
        | (Except.ok quote, cs) =>
          match qp.get? "userAddr" with
          | none => (Except.error (Exn.keyError "userAddr"), cs)
          | some ua =>
            match quote.get? "pathId" with
            | none => (Except.error (Exn.keyError "pathId"), cs)
            | some pid =>
              let sim := (pyGet order "simulate").getD (Json.bool false)
              match assemble_transaction net ua pid sim with
              | (Except.error e, cs2) => (Except.error e, cs ++ cs2)
              | (Except.ok tx, cs2) => (Except.ok tx, cs ++ cs2)
  ⟨match inner.1 with
    | Except.ok v => Except.ok v
    | Except.error e => Except.error (Exn.exceptionIn "place_order" e),
   inner.2, order⟩

/-- Decimal digit run parsed to a number: `none` on the empty run or on
any non-digit character. -/
def decDigitsAux : List Char → Nat → Option Nat
  | [], acc => some acc
  | c :: cs, acc =>
      if c.isDigit then decDigitsAux cs (acc * 10 + (c.toNat - 48)) else none

/-- Nonempty decimal digit run parsed to a number. -/
def decDigits : List Char → Option Nat
  | [] => none
  | c :: cs => decDigitsAux (c :: cs) 0

/-- Python `int(s)` on a string: an optional sign (code points 45 and
43) followed by at least one decimal digit; anything else raises
ValueError, modelled as `none`. -/
def pyIntOfString (s : String) : Option Int :=
  match s.data with
  | [] => none
  | c :: cs =>
      if c = Char.ofNat 45 then (decDigits cs).map (fun n => -(n : Int))
      else if c = Char.ofNat 43 then (decDigits cs).map (fun n => (n : Int))
      else (decDigits (c :: cs)).map (fun n => (n : Int))

/-- Python `int(v)` as applied at odos_dex.py line 137: integers pass
through, booleans coerce to 0/1, strings are parsed as decimal integers
(an optional sign followed by digits), and every other value raises;
`none` models the raised ValueError/TypeError. -/
def pyInt : Json → Option Int
  | Json.int n => some n
  | Json.bool b => some (if b then 1 else 0)
  | Json.str s => pyIntOfString s
  | _ => none

/-- Python dict assignment `d[k] = v`: replace the value at an existing
key in place, or append a new entry at the end. -/
def setKey : PyDict → String → Json → PyDict
  | [], k, v => [(k, v)]
  | (k1, v1) :: rest, k, v =>
      if k1 == k then (k1, v) :: rest else (k1, v1) :: setKey rest k v

/-- Transaction hash as handed back by `w3.eth.send_raw_transaction`:
either raw bytes or an already-string form, distinguished by the
`isinstance(tx_hash, bytes)` test at line 140. -/
inductive HashVal where
  | bytes : List Nat → HashVal
  | str : String → HashVal

/-- Oracle for the web3 network client used by submit_to_chain:
`sign` is `w3.eth.account.sign_transaction` (yielding the raw signed
bytes or raising), `sendRaw` is `w3.eth.send_raw_transaction`. -/
structure W3 where
  sign : PyDict → String → Except String (List Nat)
  sendRaw : List Nat → Except String HashVal

/-- Lowercase hex digit of a nibble, as produced by Python
`bytes.hex()`. -/
def hexDigit (n : Nat) : Char :=
  if n < 10 then Char.ofNat (48 + n) else Char.ofNat (87 + n)

/-- Character list of Python `bytes.hex()`: two lowercase hex digits per
byte. -/
def bytesHexChars (bs : List Nat) : List Char :=
  bs.flatMap (fun b => [hexDigit ((b / 16) % 16), hexDigit (b % 16)])

/-- Python `bytes.hex()`: the lowercase hexadecimal string of a byte
sequence. -/
def bytesHex (bs : List Nat) : String := String.mk (bytesHexChars bs)

/-- Character allowed in a lowercase hexadecimal string: a decimal digit
or one of the letters a-f. -/
def isHexLowerChar (c : Char) : Bool :=
  c.isDigit || (97 ≤ c.toNat && c.toNat ≤ 102)

/-- Predicate used to state the hash-normalization claims: every
character of the string is a lowercase hexadecimal digit. -/
def isLowerHexString (s : String) : Bool := s.data.all isHexLowerChar

/-- Events of one submit_to_chain run: the transaction mapping and key
passed to signing, then the raw bytes broadcast. -/
inductive SubmitEv where
  | signed : PyDict → String → SubmitEv
  | broadcast : List Nat → SubmitEv

/-- Result of OdosDex.submit_to_chain: the returned hash string or
exception, the signing/broadcast events, and the post-state of the
caller's `transaction` mapping. -/
structure SubmitOut where
  res : Except Exn String
  events : List SubmitEv
  txAfter : PyDict

/-- OdosDex.submit_to_chain (odos_dex.py lines 117-143): overwrite
`transaction["value"]` with its integer coercion — an in-place update of
the caller's mapping — then sign the mutated mapping, broadcast the raw
signed transaction, and return `tx_hash.hex()` when the client gave
bytes, or the client's value unchanged otherwise.  Every failure is
re-wrapped into `Exception in submit_to_chain: ...`. -/
def submit_to_chain (w3 : W3) (transaction : PyDict) (private_key : String) : SubmitOut :=
  let inner : Except Exn String × List SubmitEv × PyDict :=
    match pyGet transaction "value" with
    | none => (Except.error (Exn.keyError "value"), [], transaction)
    | some v =>
      match pyInt v with
      | none => (Except.error (Exn.pyError "invalid value for int coercion"), [], transaction)
      | some n =>
        let tx2 := setKey transaction "value" (Json.int n)
        match w3.sign tx2 private_key with
        | Except.error m =>
            (Except.error (Exn.pyError m), [SubmitEv.signed tx2 private_key], tx2)
        | Except.ok raw =>
          match w3.sendRaw raw with
          | Except.error m =>
              (Except.error (Exn.pyError m),
               [SubmitEv.signed tx2 private_key, SubmitEv.broadcast raw], tx2)
          | Except.ok h =>
              (Except.ok (match h with
                | HashVal.bytes bs => bytesHex bs
                | HashVal.str s => s),
               [SubmitEv.signed tx2 private_key, SubmitEv.broadcast raw], tx2)
  match inner with
  | (Except.ok v, evs, t) => ⟨Except.ok v, evs, t⟩
  | (Except.error e, evs, t) => ⟨Except.error (Exn.exceptionIn "submit_to_chain" e), evs, t⟩

/-- Result of OdosDex.cancel_order: the returned boolean or exception,
and the lines printed to stdout. -/
structure CancelOut where
  res : Except Exn Bool
  printed : List String

set_option linter.unusedVariables false in
/-- OdosDex.cancel_order (odos_dex.py lines 145-150): print that
cancellation is not available and return False; the body can raise
nothing, so the catch-all re-wrap is dead code, and the order_id
parameter is read by no statement. -/
def cancel_order (order_id : String) : CancelOut :=
  ⟨Except.ok false, ["Cancel order is not available"]⟩

/-- Looking up the key just assigned by `setKey` yields the assigned
value. -/
theorem pyGet_setKey (d : PyDict) (k : String) (v : Json) :
    pyGet (setKey d k v) k = some v := by
  induction d with
  | nil => simp [setKey, pyGet, lookupKey]
  | cons p tl ih =>
    obtain ⟨k1, v1⟩ := p
    simp only [setKey]
    by_cases h : k1 = k
    · simp [h, pyGet, lookupKey]
    · have hb : (k1 == k) = false := by simp [h]
      simpa [hb, pyGet, lookupKey] using ih

/-- Every character produced by `bytes.hex()` is a lowercase hex
digit. -/
theorem isLowerHexString_bytesHex (bs : List Nat) :
    isLowerHexString (bytesHex bs) = true := by
  have hdig : ∀ n : Nat, isHexLowerChar (hexDigit (n % 16)) = true := by
    intro n
    have h16 : n % 16 < 16 := Nat.mod_lt _ (by norm_num)
    have hall : ∀ m : Fin 16, isHexLowerChar (hexDigit m.val) = true := by decide
    exact hall ⟨n % 16, h16⟩
  show List.all (bytesHexChars bs) isHexLowerChar = true
  rw [List.all_eq_true]
  intro c hc
  rw [bytesHexChars, List.mem_flatMap] at hc
  obtain ⟨b, _, hc2⟩ := hc
  simp only [List.mem_cons, List.not_mem_nil, or_false] at hc2
  rcases hc2 with h | h
  · exact h ▸ hdig (b / 16)
  · exact h ▸ hdig b

/-- Claim C7: cancel_order on the Odos backend returns false for every
order identifier and never raises: absence of cancellation support is a
normal boolean result, not an error. -/
theorem cancel_order_always_false (order_id : String) :
    (cancel_order order_id).res = Except.ok false := rfl

/-- Claim C8: place_order never mutates the caller's order mapping: the
post-state of the order (its embedded quote_params included) equals the
argument on every path, returning or raising. -/
theorem place_order_preserves_order (net : Net) (order : PyDict) :
    (place_order net order).orderAfter = order := rfl

/-- Claim C3: when the order has no quote_params entry, place_order
fails with the ValidationError message about missing quote parameters
(the ValueError of line 101, re-wrapped by the catch-all of line 114)
and issues no network call at all. -/
theorem place_order_missing_quote_params (net : Net) (order : PyDict)
    (h : pyGet order "quote_params" = none) :
    (place_order net order).res =
      Except.error (Exn.exceptionIn "place_order" (Exn.valueError quoteParamsMsg)) ∧
    (place_order net order).calls = [] := by
  unfold place_order
  simp [h]

/-- Network oracle on which every endpoint fails, used to witness the
validation properties: no call is issued, so its answers are never
consulted. -/
def netStub : Net :=
  ⟨fun _ => HttpResult.netFail "down", fun _ => HttpResult.netFail "down"⟩

/-- Witness for place_order_missing_quote_params at the empty order. -/
theorem place_order_missing_quote_params_witness :
    pyGet [] "quote_params" = none ∧
    ((place_order netStub []).res =
      Except.error (Exn.exceptionIn "place_order" (Exn.valueError quoteParamsMsg)) ∧
    (place_order netStub []).calls = []) :=
  ⟨rfl, place_order_missing_quote_params netStub [] rfl⟩

/-- Claim C10: an order whose quote_params entry is present but falsy
(for instance an empty mapping) takes the same validation-failure path
as a missing entry: the ValidationError is raised and no network call is
issued. -/
theorem place_order_falsy_quote_params (net : Net) (order : PyDict) (qp : Json)
    (h : pyGet order "quote_params" = some qp) (hf : pyFalsy qp = true) :
    (place_order net order).res =
      Except.error (Exn.exceptionIn "place_order" (Exn.valueError quoteParamsMsg)) ∧
    (place_order net order).calls = [] := by
  unfold place_order
  simp [h, hf]

/-- Witness for place_order_falsy_quote_params at an order carrying an
empty quote_params mapping. -/
theorem place_order_falsy_quote_params_witness :
    pyGet [("quote_params", Json.obj [])] "quote_params" = some (Json.obj []) ∧
    pyFalsy (Json.obj []) = true ∧
    ((place_order netStub [("quote_params", Json.obj [])]).res =
      Except.error (Exn.exceptionIn "place_order" (Exn.valueError quoteParamsMsg)) ∧
    (place_order netStub [("quote_params", Json.obj [])]).calls = []) :=
  ⟨rfl, rfl,
   place_order_falsy_quote_params netStub [("quote_params", Json.obj [])] (Json.obj []) rfl rfl⟩

/-- Claim C4: for a quoting-endpoint response of status s with body b,
get_quote returns the parsed body exactly when s is 200, and for any
other status it raises the QuoteError built from the original error
body (re-wrapped by the catch-all), preserving that body. -/
theorem get_quote_status_cases (net : Net) (p : Json) (s : Nat) (b : Json)
    (h : net.quote p = HttpResult.ok s b) :
    ((get_quote net p).1 = Except.ok b ↔ s = 200) ∧
    (s ≠ 200 → (get_quote net p).1 =
      Except.error (Exn.exceptionIn "get_quote" (Exn.errorInQuote b))) := by
  unfold get_quote
  rw [h]
  by_cases hs : s = 200
  · subst hs; simp
  · simp [hs]

/-- Network oracle of the happy path: the quoting endpoint answers 200
with a body carrying pathId p1, the assembly endpoint answers 200 with
the assembled transaction fields. -/
def netHappy : Net :=
  ⟨fun _ => HttpResult.ok 200 (Json.obj [("pathId", Json.str "p1")]),
   fun _ => HttpResult.ok 200 (Json.obj
     [("to", Json.str "0xDEF"), ("value", Json.str "0"), ("data", Json.str "0x1234")])⟩

/-- Witness for get_quote_status_cases on a 200 response. -/
theorem get_quote_status_cases_witness :
    netHappy.quote Json.null = HttpResult.ok 200 (Json.obj [("pathId", Json.str "p1")]) ∧
    (((get_quote netHappy Json.null).1 =
        Except.ok (Json.obj [("pathId", Json.str "p1")]) ↔ (200 : Nat) = 200) ∧
     ((200 : Nat) ≠ 200 → (get_quote netHappy Json.null).1 =
        Except.error (Exn.exceptionIn "get_quote"
          (Exn.errorInQuote (Json.obj [("pathId", Json.str "p1")]))))) :=
  ⟨rfl, get_quote_status_cases netHappy Json.null 200 (Json.obj [("pathId", Json.str "p1")]) rfl⟩

/-- Claim C1: when the quote stage answers 200 with a quote carrying a
pathId and the assembly stage answers 200 with a body, place_order
returns exactly that assembly response body, unmodified. -/
theorem place_order_returns_assembly_body
    (net : Net) (order : PyDict) (qp q ua pid body : Json)
    (hqp : pyGet order "quote_params" = some qp)
    (hne : pyFalsy qp = false)
    (hq : net.quote qp = HttpResult.ok 200 q)
    (hua : qp.get? "userAddr" = some ua)
    (hpid : q.get? "pathId" = some pid)
    (ha : net.assemble (Json.obj [("userAddr", ua), ("pathId", pid),
        ("simulate", (pyGet order "simulate").getD (Json.bool false))]) =
      HttpResult.ok 200 body) :
    (place_order net order).res = Except.ok body := by
  unfold place_order get_quote assemble_transaction
  simp [hqp, hne, hq, hua, hpid, ha]

/-- Order used to witness the happy-path claims: the concrete scenario
of the specification, with quote_params carrying userAddr 0xABC. -/
def orderHappy : PyDict :=
  [("quote_params", Json.obj
    [("chainId", Json.int 1),
     ("inputTokens", Json.arr [Json.obj [("token", Json.str "A"), ("amount", Json.str "100")]]),
     ("outputTokens", Json.arr [Json.obj [("token", Json.str "B"), ("proportion", Json.int 1)]]),
     ("userAddr", Json.str "0xABC")])]

/-- Witness for place_order_returns_assembly_body on the specification
scenario: quote answers pathId p1, assembly answers the transaction
fields, and place_order returns them verbatim. -/
theorem place_order_returns_assembly_body_witness :
    pyGet orderHappy "quote_params" = some (Json.obj
      [("chainId", Json.int 1),
       ("inputTokens", Json.arr [Json.obj [("token", Json.str "A"), ("amount", Json.str "100")]]),
       ("outputTokens", Json.arr [Json.obj [("token", Json.str "B"), ("proportion", Json.int 1)]]),
       ("userAddr", Json.str "0xABC")]) ∧
    (place_order netHappy orderHappy).res = Except.ok (Json.obj
      [("to", Json.str "0xDEF"), ("value", Json.str "0"), ("data", Json.str "0x1234")]) :=
  ⟨rfl,
   place_order_returns_assembly_body netHappy orderHappy
     (Json.obj
       [("chainId", Json.int 1),
        ("inputTokens", Json.arr [Json.obj [("token", Json.str "A"), ("amount", Json.str "100")]]),
        ("outputTokens", Json.arr [Json.obj [("token", Json.str "B"), ("proportion", Json.int 1)]]),
        ("userAddr", Json.str "0xABC")])
     (Json.obj [("pathId", Json.str "p1")])
     (Json.str "0xABC") (Json.str "p1")
     (Json.obj [("to", Json.str "0xDEF"), ("value", Json.str "0"), ("data", Json.str "0x1234")])
     rfl rfl rfl rfl rfl rfl⟩

/-- Claim C2: under a successful quote, the assembly request body sent
by place_order is exactly the object holding the userAddr taken from the
order's quote_params, the pathId taken from the quote, and the simulate
flag taken from the order with default false; this holds whatever the
assembly endpoint then answers. -/
theorem place_order_assembly_request
    (net : Net) (order : PyDict) (qp q ua pid : Json)
    (hqp : pyGet order "quote_params" = some qp)
    (hne : pyFalsy qp = false)
    (hq : net.quote qp = HttpResult.ok 200 q)
    (hua : qp.get? "userAddr" = some ua)
    (hpid : q.get? "pathId" = some pid) :
    (place_order net order).calls =
      [Call.quotePost qp,
       Call.assemblePost (Json.obj [("userAddr", ua), ("pathId", pid),
         ("simulate", (pyGet order "simulate").getD (Json.bool false))])] := by
  unfold place_order get_quote assemble_transaction
  cases hA : net.assemble (Json.obj [("userAddr", ua), ("pathId", pid),
      ("simulate", (pyGet order "simulate").getD (Json.bool false))]) with
  | ok s b =>
    by_cases hs : s = 200
    · subst hs; simp [hqp, hne, hq, hua, hpid, hA]
    · simp [hqp, hne, hq, hua, hpid, hA, hs]
  | netFail m => simp [hqp, hne, hq, hua, hpid, hA]

/-- Witness for place_order_assembly_request on the specification
scenario: the calls issued are the quote post followed by the assembly
post with userAddr 0xABC, pathId p1 and simulate false. -/
theorem place_order_assembly_request_witness :
    pyGet orderHappy "simulate" = none ∧
    (place_order netHappy orderHappy).calls =
      [Call.quotePost (Json.obj
        [("chainId", Json.int 1),
         ("inputTokens", Json.arr [Json.obj [("token", Json.str "A"), ("amount", Json.str "100")]]),
         ("outputTokens", Json.arr [Json.obj [("token", Json.str "B"), ("proportion", Json.int 1)]]),
         ("userAddr", Json.str "0xABC")]),
       Call.assemblePost (Json.obj [("userAddr", Json.str "0xABC"), ("pathId", Json.str "p1"),
         ("simulate", (pyGet orderHappy "simulate").getD (Json.bool false))])] :=
  ⟨rfl,
   place_order_assembly_request netHappy orderHappy
     (Json.obj
       [("chainId", Json.int 1),
        ("inputTokens", Json.arr [Json.obj [("token", Json.str "A"), ("amount", Json.str "100")]]),
        ("outputTokens", Json.arr [Json.obj [("token", Json.str "B"), ("proportion", Json.int 1)]]),
        ("userAddr", Json.str "0xABC")])
     (Json.obj [("pathId", Json.str "p1")])
     (Json.str "0xABC") (Json.str "p1")
     rfl rfl rfl rfl rfl⟩

/-- Claim C5: when the quote stage succeeds but the assembly endpoint
answers a non-200 status with error body d, place_order raises a single
error: the place_order wrap (the OrderError) around the
assemble_transaction wrap (the AssemblyError) around the original error
body d, which is preserved; the quote is discarded, the result being an
error rather than any returned value. -/
theorem place_order_assembly_failure
    (net : Net) (order : PyDict) (qp q ua pid d : Json) (s : Nat)
    (hqp : pyGet order "quote_params" = some qp)
    (hne : pyFalsy qp = false)
    (hq : net.quote qp = HttpResult.ok 200 q)
    (hua : qp.get? "userAddr" = some ua)
    (hpid : q.get? "pathId" = some pid)
    (ha : net.assemble (Json.obj [("userAddr", ua), ("pathId", pid),
        ("simulate", (pyGet order "simulate").getD (Json.bool false))]) =
      HttpResult.ok s d)
    (hs : s ≠ 200) :
    (place_order net order).res =
      Except.error (Exn.exceptionIn "place_order"
        (Exn.exceptionIn "assemble_transaction" (Exn.errorInAssembly d))) := by
  unfold place_order get_quote assemble_transaction
  simp [hqp, hne, hq, hua, hpid, ha, hs]

/-- Network oracle whose quote succeeds and whose assembly endpoint
answers 400 with an error body. -/
def netAsmFail : Net :=
  ⟨fun _ => HttpResult.ok 200 (Json.obj [("pathId", Json.str "p1")]),
   fun _ => HttpResult.ok 400 (Json.obj [("detail", Json.str "no liquidity")])⟩

/-- Witness for place_order_assembly_failure: a 400 assembly answer on
the specification scenario yields the doubly wrapped error holding the
endpoint's error body. -/
theorem place_order_assembly_failure_witness :
    (400 : Nat) ≠ 200 ∧
    (place_order netAsmFail orderHappy).res =
      Except.error (Exn.exceptionIn "place_order"
        (Exn.exceptionIn "assemble_transaction"
          (Exn.errorInAssembly (Json.obj [("detail", Json.str "no liquidity")])))) :=
  ⟨by decide,
   place_order_assembly_failure netAsmFail orderHappy
     (Json.obj
       [("chainId", Json.int 1),
        ("inputTokens", Json.arr [Json.obj [("token", Json.str "A"), ("amount", Json.str "100")]]),
        ("outputTokens", Json.arr [Json.obj [("token", Json.str "B"), ("proportion", Json.int 1)]]),
        ("userAddr", Json.str "0xABC")])
     (Json.obj [("pathId", Json.str "p1")])
     (Json.str "0xABC") (Json.str "p1")
     (Json.obj [("detail", Json.str "no liquidity")]) 400
     rfl rfl rfl rfl rfl rfl (by decide)⟩

/-- Transaction mapping whose value field is the string 1000, as in the
submit claims. -/
def txStrValue : PyDict := [("value", Json.str "1000")]

/-- Network client whose broadcast hands the hash back as an uppercase
string: signing succeeds, send_raw_transaction returns the string
0XABC. -/
def w3UpperStr : W3 :=
  ⟨fun _ _ => Except.ok [], fun _ => Except.ok (HashVal.str "0XABC")⟩

/-- Counterexample to claim C6 as stated: when the network client
returns the hash as a string, submit_to_chain returns it verbatim, so an
uppercase client string yields a returned hash that is not a lowercase
hexadecimal string. -/
theorem submit_hash_not_lowercased :
    (submit_to_chain w3UpperStr txStrValue "key").res = Except.ok "0XABC" ∧
    isLowerHexString "0XABC" = false := by
  have hpi : pyInt (Json.str "1000") = some (1000 : Int) := by decide
  constructor
  · unfold submit_to_chain
    simp [txStrValue, w3UpperStr, pyGet, lookupKey, hpi]
  · decide

/-- Claim C6 as amended: with value the string 1000, submit_to_chain
signs exactly the mapping whose value field was coerced to the integer
1000 (the first recorded event is that signing); the returned hash is a
string in both client cases — the lowercase hex rendering of the bytes
when the client returns bytes, and the client's string unchanged when it
returns a string (hence lowercase only if the client's string was). -/
theorem submit_coerces_value_and_hash_form
    (w3 : W3) (tx : PyDict) (pk : String) (raw : List Nat) (h : HashVal)
    (hv : pyGet tx "value" = some (Json.str "1000"))
    (hsig : w3.sign (setKey tx "value" (Json.int 1000)) pk = Except.ok raw)
    (hsend : w3.sendRaw raw = Except.ok h) :
    (submit_to_chain w3 tx pk).events.head? =
      some (SubmitEv.signed (setKey tx "value" (Json.int 1000)) pk) ∧
    pyGet (setKey tx "value" (Json.int 1000)) "value" = some (Json.int 1000) ∧
    (submit_to_chain w3 tx pk).res = Except.ok
      (match h with | HashVal.bytes bs => bytesHex bs | HashVal.str s => s) ∧
    (∀ bs, h = HashVal.bytes bs → isLowerHexString (bytesHex bs) = true) ∧
    (∀ s, h = HashVal.str s → (submit_to_chain w3 tx pk).res = Except.ok s) := by
  have hpi : pyInt (Json.str "1000") = some (1000 : Int) := by decide
  refine ⟨?_, pyGet_setKey tx "value" (Json.int 1000), ?_, ?_, ?_⟩
  · unfold submit_to_chain
    simp [hv, hpi, hsig, hsend]
  · cases h with
    | bytes bs =>
      unfold submit_to_chain
      simp [hv, hpi, hsig, hsend]
    | str s =>
      unfold submit_to_chain
      simp [hv, hpi, hsig, hsend]
  · intro bs _
    exact isLowerHexString_bytesHex bs
  · intro s hstr
    subst hstr
    unfold submit_to_chain
    simp [hv, hpi, hsig, hsend]

/-- Network client whose broadcast hands the hash back as raw bytes. -/
def w3BytesHash : W3 :=
  ⟨fun _ _ => Except.ok [1], fun _ => Except.ok (HashVal.bytes [171, 205])⟩

/-- Witness for submit_coerces_value_and_hash_form on the bytes-hash
client. -/
theorem submit_coerces_value_and_hash_form_witness :
    pyGet txStrValue "value" = some (Json.str "1000") ∧
    w3BytesHash.sign (setKey txStrValue "value" (Json.int 1000)) "k" = Except.ok [1] ∧
    w3BytesHash.sendRaw [1] = Except.ok (HashVal.bytes [171, 205]) ∧
    ((submit_to_chain w3BytesHash txStrValue "k").events.head? =
      some (SubmitEv.signed (setKey txStrValue "value" (Json.int 1000)) "k") ∧
    pyGet (setKey txStrValue "value" (Json.int 1000)) "value" = some (Json.int 1000) ∧
    (submit_to_chain w3BytesHash txStrValue "k").res = Except.ok
      (match HashVal.bytes [171, 205] with
        | HashVal.bytes bs => bytesHex bs | HashVal.str s => s) ∧
    (∀ bs, HashVal.bytes [171, 205] = HashVal.bytes bs →
      isLowerHexString (bytesHex bs) = true) ∧
    (∀ s, HashVal.bytes [171, 205] = HashVal.str s →
      (submit_to_chain w3BytesHash txStrValue "k").res = Except.ok s)) :=
  ⟨rfl, rfl, rfl,
   submit_coerces_value_and_hash_form w3BytesHash txStrValue "k" [1]
     (HashVal.bytes [171, 205]) rfl rfl rfl⟩

/-- Claim C9: submit_to_chain mutates the caller's transaction mapping
in place: whenever the value field coerces to an integer n, the
post-state of the caller's mapping is the original with value overwritten
by the integer n — so when the original value was a string, the mapping
no longer holds it. -/
theorem submit_mutates_transaction
    (w3 : W3) (tx : PyDict) (pk : String) (v : Json) (n : Int)
    (hv : pyGet tx "value" = some v) (hn : pyInt v = some n) :
    (submit_to_chain w3 tx pk).txAfter = setKey tx "value" (Json.int n) ∧
    pyGet (submit_to_chain w3 tx pk).txAfter "value" = some (Json.int n) ∧
    (∀ s, v = Json.str s → pyGet (submit_to_chain w3 tx pk).txAfter "value" ≠ some v) := by
  have h1 : (submit_to_chain w3 tx pk).txAfter = setKey tx "value" (Json.int n) := by
    unfold submit_to_chain
    cases hs : w3.sign (setKey tx "value" (Json.int n)) pk with
    | error m => simp [hv, hn, hs]
    | ok raw =>
      cases hr : w3.sendRaw raw with
      | error m => simp [hv, hn, hs, hr]
      | ok h2 => simp [hv, hn, hs, hr]
  refine ⟨h1, ?_, ?_⟩
  · rw [h1]; exact pyGet_setKey tx "value" (Json.int n)
  · intro s hvs hcontra
    rw [h1, pyGet_setKey, hvs] at hcontra
    simp at hcontra

/-- Witness for submit_mutates_transaction: after a successful submit of
the string-valued transaction, the caller's mapping holds the integer
1000 and no longer the string. -/
theorem submit_mutates_transaction_witness :
    pyGet txStrValue "value" = some (Json.str "1000") ∧
    pyInt (Json.str "1000") = some (1000 : Int) ∧
    ((submit_to_chain w3BytesHash txStrValue "k").txAfter =
      setKey txStrValue "value" (Json.int 1000) ∧
    pyGet (submit_to_chain w3BytesHash txStrValue "k").txAfter "value" =
      some (Json.int 1000) ∧
    (∀ s, Json.str "1000" = Json.str s →
      pyGet (submit_to_chain w3BytesHash txStrValue "k").txAfter "value" ≠
        some (Json.str "1000"))) :=
  ⟨rfl, by decide,
   submit_mutates_transaction w3BytesHash txStrValue "k" (Json.str "1000") 1000
     rfl (by decide)⟩
